import Mathlib

/-!
# Verification of the users-core service layer

A shallow embedding of the Go package `users` (files `service.go`, `errors.go`,
`user.go`, `repository.go`, `hasher.go`) and proofs about its business rules.

Modelling conventions:
* Go `error` values are `GoError`: `errors.New` sentinels are `GoError.msg`,
  and a `fmt.Errorf` result that wraps an error with `%w` is `GoError.wrap`
  (carrying the wrapped error and the rendered message). `errors.Is` is
  `GoError.is`. A `%v`-formatted cause is flattened into the message string,
  exactly as in Go.
* A Go `(T, error)` return is `Except GoError T`. For pointer results the
  ordinary contract (nil error implies non-nil pointer) is assumed, so a
  successful lookup always carries a value.
* `context.Context` carries no data the service ever inspects and is
  propagated verbatim, so it is dropped from the embedding.
* `time.Time` is an abstract tick count `Time := Nat`; each operation that
  calls `time.Now()` takes the current instant as an explicit argument.
* The injected dependencies (repositories, hasher, tokenizer) are records of
  pure functions; theorems quantify over them. Each service operation also
  returns the list of dependency calls it made, in order, so that statements
  such as "Create is never invoked" are expressible.
-/

namespace UsersCore

/-- Go `time.Time`, abstracted to a tick count. -/
abbrev Time := Nat

/-- A Go `error` value: either a leaf error (`errors.New` / an opaque
dependency error), or a wrapping error produced by `fmt.Errorf` with `%w`,
which records the single wrapped error together with the full rendered
message. -/
inductive GoError where
  | msg (s : String)
  | wrap (inner : GoError) (s : String)
deriving DecidableEq, Repr

/-- `err.Error()`: the rendered message of an error. -/
def GoError.message : GoError → String
  | .msg s => s
  | .wrap _ s => s

/-- Go `errors.Is(e, target)`: `e` equals the target or some error in its
`Unwrap` chain does. -/
def GoError.is : GoError → GoError → Bool
  | .msg s, t => decide (GoError.msg s = t)
  | .wrap inner s, t => decide (GoError.wrap inner s = t) || GoError.is inner t

/-- The `Unwrap` chain of an error, starting at the error itself. -/
def GoError.chain : GoError → List GoError
  | .msg s => [.msg s]
  | .wrap inner s => .wrap inner s :: inner.chain

/- The error taxonomy of `errors.go`. -/

def ErrInvalidCredentials : GoError := .msg "invalid credentials"
def ErrUserNotFound : GoError := .msg "user not found"
def ErrEmailTaken : GoError := .msg "email already taken"
def ErrUsernameAlreadyExists : GoError := .msg "username already exists"
def ErrFailedToCreateRole : GoError := .msg "failed to create role"
def ErrFailedToUpdateUser : GoError := .msg "failed to update user"
def ErrFailedToDeleteUser : GoError := .msg "failed to delete user"
def ErrFailedToListUsers : GoError := .msg "failed to list users"
def ErrRoleNotFound : GoError := .msg "role not found"
def ErrFailedToHashPassword : GoError := .msg "failed to hash password"
def ErrCannotUseSamePassword : GoError := .msg "cannot use the same password"

/-- `fmt.Errorf("%w: %v", sentinel, cause)`: wraps the sentinel (so
`errors.Is` recognises it) and flattens the cause into the message. -/
def wrapKind (sentinel cause : GoError) : GoError :=
  .wrap sentinel (sentinel.message ++ ": " ++ cause.message)

/-- `fmt.Errorf(m ++ ": %w", cause)`: wraps the cause itself; the text `m`
appears only in the message, not as an unwrappable error. -/
def wrapWith (m : String) (cause : GoError) : GoError :=
  .wrap cause (m ++ ": " ++ cause.message)

/-- The `User` domain model of `user.go`. -/
structure User where
  ID : String
  Email : String
  HashedPassword : String
  Username : String
  LastSeen : Time
  RoleID : String
deriving DecidableEq, Repr

/-- Modelled from the spec: `role.go` ("Role domain model and constants") is
not among the provided sources; spec §3 gives `Role` the fields `ID` (opaque
unique string assigned on creation) and `Name`. -/
structure Role where
  ID : String
  Name : String
deriving DecidableEq, Repr

/-- Modelled from the spec: the role-name constant for the default role,
"user" (spec §3 and §9, `role.go` absent). -/
def RoleUser : String := "user"

/-- Modelled from the spec: the fixed admin role name, "admin" (spec §3 and
§9, `role.go` absent). -/
def RoleAdmin : String := "admin"

/-- Modelled from the spec: `DTO.go` is not among the provided sources; the
registration input carries `Email`, `Username`, `Password` (spec §4.3 and the
README example). -/
structure UserRegisterInput where
  Email : String
  Username : String
  Password : String
deriving DecidableEq, Repr

/-- Modelled from the spec: `DTO.go` is not among the provided sources; the
login input carries `Email` and `Password` (spec §4.3). -/
structure UserLoginInput where
  Email : String
  Password : String
deriving DecidableEq, Repr

/-- The `UserRepository` interface of `user_repository.go`, as a record of
pure functions (an arbitrary but fixed behavior of the dependency). -/
structure UserRepository where
  create : User → Except GoError User
  update : User → Except GoError User
  getByID : String → Except GoError User
  getByEmail : String → Except GoError User
  getByUsername : String → Except GoError User
  list : Except GoError (List User)
  delete : String → Except GoError Unit

/-- The `RoleRepository` interface, as a record of pure functions. -/
structure RoleRepository where
  create : Role → Except GoError Role
  update : Role → Except GoError Role
  delete : String → Except GoError Unit
  getByID : String → Except GoError Role
  getByName : String → Except GoError Role
  list : Except GoError (List Role)

/-- The `PasswordHasher` interface of `hasher.go`. `Verify` never errors. -/
structure PasswordHasher where
  hash : String → Except GoError String
  verify : (hashedPassword : String) → (password : String) → Bool

/-- The `Tokenizer` interface of `hasher.go`. -/
structure Tokenizer where
  generateToken : (email : String) → (userID : String) → Except GoError String
  validateToken : String → Except GoError String

/-- One dependency invocation made by a service operation, with its
arguments. Service operations return the ordered list of these. -/
inductive Call where
  | hasherHash (password : String)
  | hasherVerify (hashedPassword password : String)
  | userCreate (u : User)
  | userUpdate (u : User)
  | userGetByID (id : String)
  | userGetByEmail (email : String)
  | userGetByUsername (username : String)
  | userList
  | userDelete (id : String)
  | roleCreate (r : Role)
  | roleGetByID (id : String)
  | roleGetByName (name : String)
  | roleList
  | tokenGenerate (email userID : String)
deriving DecidableEq, Repr

/-- The `Service` struct of `service.go`: a stateless façade over the four
injected dependencies. -/
structure Service where
  userRepo : UserRepository
  roleRepo : RoleRepository
  hasher : PasswordHasher
  tokenizer : Tokenizer

/-- The tail of `Register` after the default role has been resolved: build
the `User` value (zero-value `ID`, `LastSeen = time.Now()`, the resolved
`RoleID`) and create it through the repository. -/
def registerCreateUser (s : Service) (input : UserRegisterInput) (now : Time)
    (hashedPassword : String) (role : Role) (callsSoFar : List Call) :
    Except GoError User × List Call :=
  let user : User :=
    { ID := "", Email := input.Email, Username := input.Username,
      HashedPassword := hashedPassword, LastSeen := now, RoleID := role.ID }
  match s.userRepo.create user with
  | .error e =>
      (.error (wrapWith "failed to create user" e), callsSoFar ++ [.userCreate user])
  | .ok createdUser => (.ok createdUser, callsSoFar ++ [.userCreate user])

/-- `Service.Register` (`service.go`): hash the password, check email
uniqueness, resolve or lazily create the default role, create the user. -/
def Service.Register (s : Service) (input : UserRegisterInput) (now : Time) :
    Except GoError User × List Call :=
  match s.hasher.hash input.Password with
  | .error e =>
      (.error (wrapWith "failed to hash password" e), [.hasherHash input.Password])
  | .ok hashedPassword =>
    match s.userRepo.getByEmail input.Email with
    | .ok _existing =>
        (.error ErrEmailTaken,
         [.hasherHash input.Password, .userGetByEmail input.Email])
    | .error _ =>
      match s.roleRepo.getByName RoleUser with
      | .ok role =>
          registerCreateUser s input now hashedPassword role
            [.hasherHash input.Password, .userGetByEmail input.Email,
             .roleGetByName RoleUser]
      | .error _ =>
        match s.roleRepo.create { ID := "", Name := RoleUser } with
        | .error e =>
            (.error (wrapKind ErrFailedToCreateRole e),
             [.hasherHash input.Password, .userGetByEmail input.Email,
              .roleGetByName RoleUser, .roleCreate { ID := "", Name := RoleUser }])
        | .ok role =>
            registerCreateUser s input now hashedPassword role
              [.hasherHash input.Password, .userGetByEmail input.Email,
               .roleGetByName RoleUser, .roleCreate { ID := "", Name := RoleUser }]

/-- `Service.Login` (`service.go`). -/
def Service.Login (s : Service) (input : UserLoginInput) :
    Except GoError String × List Call :=
  match s.userRepo.getByEmail input.Email with
  | .error _ => (.error ErrUserNotFound, [.userGetByEmail input.Email])
  | .ok user =>
    if s.hasher.verify user.HashedPassword input.Password then
      match s.tokenizer.generateToken user.Email user.ID with
      | .error e =>
          (.error (wrapWith "failed to generate token" e),
           [.userGetByEmail input.Email,
            .hasherVerify user.HashedPassword input.Password,
            .tokenGenerate user.Email user.ID])
      | .ok token =>
          (.ok token,
           [.userGetByEmail input.Email,
            .hasherVerify user.HashedPassword input.Password,
            .tokenGenerate user.Email user.ID])
    else
      (.error ErrInvalidCredentials,
       [.userGetByEmail input.Email,
        .hasherVerify user.HashedPassword input.Password])

/-- `Service.GetUserByID` (`service.go`): lookup failure collapses to
`ErrUserNotFound`, the cause is discarded. -/
def Service.GetUserByID (s : Service) (id : String) :
    Except GoError User × List Call :=
  match s.userRepo.getByID id with
  | .error _ => (.error ErrUserNotFound, [.userGetByID id])
  | .ok user => (.ok user, [.userGetByID id])

/-- `Service.UpdateUser` (`service.go`). -/
def Service.UpdateUser (s : Service) (user : User) :
    Except GoError User × List Call :=
  match s.userRepo.update user with
  | .error e => (.error (wrapKind ErrFailedToUpdateUser e), [.userUpdate user])
  | .ok updatedUser => (.ok updatedUser, [.userUpdate user])

/-- `Service.ListUsers` (`service.go`). -/
def Service.ListUsers (s : Service) : Except GoError (List User) × List Call :=
  match s.userRepo.list with
  | .error e => (.error (wrapKind ErrFailedToListUsers e), [.userList])
  | .ok users => (.ok users, [.userList])

/-- `Service.DeleteUser` (`service.go`). -/
def Service.DeleteUser (s : Service) (id : String) :
    Except GoError Unit × List Call :=
  match s.userRepo.delete id with
  | .error e => (.error (wrapKind ErrFailedToDeleteUser e), [.userDelete id])
  | .ok _ => (.ok (), [.userDelete id])

/-- `Service.GetRoleByID` (`service.go`): lookup failure collapses to
`ErrRoleNotFound`. -/
def Service.GetRoleByID (s : Service) (id : String) :
    Except GoError Role × List Call :=
  match s.roleRepo.getByID id with
  | .error _ => (.error ErrRoleNotFound, [.roleGetByID id])
  | .ok role => (.ok role, [.roleGetByID id])

/-- `Service.CreateRole` (`service.go`). -/
def Service.CreateRole (s : Service) (role : Role) :
    Except GoError Role × List Call :=
  match s.roleRepo.create role with
  | .error e => (.error (wrapKind ErrFailedToCreateRole e), [.roleCreate role])
  | .ok createdRole => (.ok createdRole, [.roleCreate role])

/-- `Service.AssignRoleToUser` (`service.go`): load user, load role, set
`user.RoleID = role.ID`, persist. -/
def Service.AssignRoleToUser (s : Service) (userID roleID : String) :
    Except GoError User × List Call :=
  match s.userRepo.getByID userID with
  | .error _ => (.error ErrUserNotFound, [.userGetByID userID])
  | .ok user =>
    match s.roleRepo.getByID roleID with
    | .error _ =>
        (.error ErrRoleNotFound, [.userGetByID userID, .roleGetByID roleID])
    | .ok role =>
      let updated := { user with RoleID := role.ID }
      match s.userRepo.update updated with
      | .error e =>
          (.error (wrapKind ErrFailedToUpdateUser e),
           [.userGetByID userID, .roleGetByID roleID, .userUpdate updated])
      | .ok updatedUser =>
          (.ok updatedUser,
           [.userGetByID userID, .roleGetByID roleID, .userUpdate updated])

/-- `Service.ListRoles` (`service.go`): note the failure path reuses
`ErrFailedToListUsers`, the user-list error identity. -/
def Service.ListRoles (s : Service) : Except GoError (List Role) × List Call :=
  match s.roleRepo.list with
  | .error e => (.error (wrapKind ErrFailedToListUsers e), [.roleList])
  | .ok roles => (.ok roles, [.roleList])

/-- `Service.IsAdmin` (`service.go`): no error channel; an empty `RoleID` or
a failed role lookup yields `false` (the lookup uses `context.Background()`,
which the embedding drops like every other context). -/
def Service.IsAdmin (s : Service) (user : User) : Bool :=
  if user.RoleID = "" then false
  else
    match s.roleRepo.getByID user.RoleID with
    | .error _ => false
    | .ok role => role.Name == RoleAdmin

/-- `Service.UpdateLastSeen` (`service.go`). -/
def Service.UpdateLastSeen (s : Service) (userID : String) (now : Time) :
    Except GoError Unit × List Call :=
  match s.userRepo.getByID userID with
  | .error _ => (.error ErrUserNotFound, [.userGetByID userID])
  | .ok user =>
    let updated := { user with LastSeen := now }
    match s.userRepo.update updated with
    | .error e =>
        (.error (wrapKind ErrFailedToUpdateUser e),
         [.userGetByID userID, .userUpdate updated])
    | .ok _ => (.ok (), [.userGetByID userID, .userUpdate updated])

/-- `Service.ChangePassword` (`service.go`): load user; plaintext equality
check of old and new password (before any hash verification); verify the old
password; hash the new one; persist. -/
def Service.ChangePassword (s : Service) (userID oldPassword newPassword : String) :
    Except GoError User × List Call :=
  match s.userRepo.getByID userID with
  | .error _ => (.error ErrUserNotFound, [.userGetByID userID])
  | .ok user =>
    if oldPassword = newPassword then
      (.error ErrCannotUseSamePassword, [.userGetByID userID])
    else if !(s.hasher.verify user.HashedPassword oldPassword) then
      (.error ErrInvalidCredentials,
       [.userGetByID userID, .hasherVerify user.HashedPassword oldPassword])
    else
      match s.hasher.hash newPassword with
      | .error e =>
          (.error (wrapKind ErrFailedToHashPassword e),
           [.userGetByID userID, .hasherVerify user.HashedPassword oldPassword,
            .hasherHash newPassword])
      | .ok hashedNewPassword =>
        let updated := { user with HashedPassword := hashedNewPassword }
        match s.userRepo.update updated with
        | .error e =>
            (.error (wrapKind ErrFailedToUpdateUser e),
             [.userGetByID userID, .hasherVerify user.HashedPassword oldPassword,
              .hasherHash newPassword, .userUpdate updated])
        | .ok updatedUser =>
            (.ok updatedUser,
             [.userGetByID userID, .hasherVerify user.HashedPassword oldPassword,
              .hasherHash newPassword, .userUpdate updated])

/-- `Service.ResetPassword` (`service.go`): like `ChangePassword` but with no
old-password check. -/
def Service.ResetPassword (s : Service) (userID newPassword : String) :
    Except GoError User × List Call :=
  match s.userRepo.getByID userID with
  | .error _ => (.error ErrUserNotFound, [.userGetByID userID])
  | .ok user =>
    match s.hasher.hash newPassword with
    | .error e =>
        (.error (wrapKind ErrFailedToHashPassword e),
         [.userGetByID userID, .hasherHash newPassword])
    | .ok hashedPassword =>
      let updated := { user with HashedPassword := hashedPassword }
      match s.userRepo.update updated with
      | .error e =>
          (.error (wrapKind ErrFailedToUpdateUser e),
           [.userGetByID userID, .hasherHash newPassword, .userUpdate updated])
      | .ok updatedUser =>
          (.ok updatedUser,
           [.userGetByID userID, .hasherHash newPassword, .userUpdate updated])

/-! ## A concrete fixture (mirroring the mocks of `service_test.go`),
used to witness the hypotheses of the theorems below. -/

/-- The stored test user (cf. `testUser` in `service_test.go`). -/
def testUser : User :=
  { ID := "u1", Email := "test@example.com", HashedPassword := "hashed:password",
    Username := "testuser", LastSeen := 0, RoleID := "r1" }

/-- An admin role (cf. `testRole` in `service_test.go`). -/
def testRole : Role := { ID := "r2", Name := "admin" }

/-- The default "user" role held by the fixture role repository. -/
def defaultRole : Role := { ID := "r1", Name := "user" }

/-- A user repository holding exactly `testUser`; mutations echo their
argument. -/
def mockUserRepo : UserRepository where
  create u := .ok u
  update u := .ok u
  getByID id := if id = testUser.ID then .ok testUser else .error ErrUserNotFound
  getByEmail email :=
    if email = testUser.Email then .ok testUser else .error ErrUserNotFound
  getByUsername username :=
    if username = testUser.Username then .ok testUser else .error ErrUserNotFound
  list := .ok [testUser]
  delete _ := .ok ()

/-- A role repository holding `testRole` and `defaultRole`. -/
def mockRoleRepo : RoleRepository where
  create r := .ok r
  update r := .ok r
  delete _ := .ok ()
  getByID id :=
    if id = testRole.ID then .ok testRole
    else if id = defaultRole.ID then .ok defaultRole
    else .error ErrRoleNotFound
  getByName name :=
    if name = testRole.Name then .ok testRole
    else if name = defaultRole.Name then .ok defaultRole
    else .error ErrRoleNotFound
  list := .ok [testRole, defaultRole]

/-- The mock hasher of `service_test.go`: `Hash(pw) = "hashed:" ++ pw`. -/
def mockHasher : PasswordHasher where
  hash pw := .ok ("hashed:" ++ pw)
  verify hashed pw := hashed == "hashed:" ++ pw

/-- The mock tokenizer of `service_test.go`: always issues `"token"`. -/
def mockTokenizer : Tokenizer where
  generateToken _ _ := .ok "token"
  validateToken _ := .ok "u1"

/-- The fixture service. -/
def svc : Service :=
  { userRepo := mockUserRepo, roleRepo := mockRoleRepo,
    hasher := mockHasher, tokenizer := mockTokenizer }

/-! ## Claim theorems -/

/-- C1: for every stored user and every pair of equal plaintext strings,
`ChangePassword` fails with the "cannot use same password" error, and the
whole call trace is the single `GetByID` lookup — in particular the hasher's
`Verify` is never consulted, so the check fires before (and regardless of)
old-password verification, for every behavior of the hasher. -/
theorem changePassword_samePlaintext_shortCircuits (s : Service)
    (userID oldPassword newPassword : String) (u : User)
    (hu : s.userRepo.getByID userID = .ok u)
    (heq : oldPassword = newPassword) :
    Service.ChangePassword s userID oldPassword newPassword =
      (.error ErrCannotUseSamePassword, [.userGetByID userID]) := by
  subst heq
  simp [Service.ChangePassword, hu]

/-- Witness for C1: the fixture user's real password is "password", yet
`ChangePassword` with a wrong-but-equal pair fails with the same-password
error after only the lookup. -/
theorem changePassword_samePlaintext_shortCircuits_witness :
    Service.ChangePassword svc "u1" "notTheRealPassword" "notTheRealPassword" =
      (.error ErrCannotUseSamePassword, [.userGetByID "u1"]) :=
  changePassword_samePlaintext_shortCircuits svc "u1" "notTheRealPassword"
    "notTheRealPassword" testUser rfl rfl

/-- C2: when hashing succeeds and the repository's `GetByEmail` succeeds and
returns a user, `Register` fails with the "email already taken" error and the
user repository's `Create` is never invoked. -/
theorem register_emailTaken_noCreate (s : Service) (input : UserRegisterInput)
    (now : Time) (hp : String) (u : User)
    (hhash : s.hasher.hash input.Password = .ok hp)
    (hmail : s.userRepo.getByEmail input.Email = .ok u) :
    (Service.Register s input now).1 = .error ErrEmailTaken ∧
    ∀ w, Call.userCreate w ∉ (Service.Register s input now).2 := by
  simp [Service.Register, hhash, hmail]

/-- Witness for C2: registering the fixture's already-stored email. -/
theorem register_emailTaken_noCreate_witness :
    (Service.Register svc
        { Email := "test@example.com", Username := "x", Password := "pw" } 0).1 =
      .error ErrEmailTaken ∧
    ∀ w, Call.userCreate w ∉
      (Service.Register svc
        { Email := "test@example.com", Username := "x", Password := "pw" } 0).2 :=
  register_emailTaken_noCreate svc
    { Email := "test@example.com", Username := "x", Password := "pw" } 0
    "hashed:pw" testUser rfl rfl

/-- C4: `Login` returns "user not found" on any lookup failure; "invalid
credentials" when the lookup succeeds but `Verify` is false; and the
tokenizer's (non-empty) token when credentials are correct and the tokenizer
succeeds. -/
theorem login_cases (s : Service) (input : UserLoginInput) :
    (∀ e, s.userRepo.getByEmail input.Email = .error e →
        (Service.Login s input).1 = .error ErrUserNotFound)
  ∧ (∀ u, s.userRepo.getByEmail input.Email = .ok u →
        s.hasher.verify u.HashedPassword input.Password = false →
        (Service.Login s input).1 = .error ErrInvalidCredentials)
  ∧ (∀ u t, s.userRepo.getByEmail input.Email = .ok u →
        s.hasher.verify u.HashedPassword input.Password = true →
        s.tokenizer.generateToken u.Email u.ID = .ok t → t ≠ "" →
        (Service.Login s input).1 = .ok t ∧ t ≠ "") := by
  refine ⟨?_, ?_, ?_⟩
  · intro e he
    simp [Service.Login, he]
  · intro u hu hv
    simp [Service.Login, hu, hv]
  · intro u t hu hv ht hne
    exact ⟨by simp [Service.Login, hu, hv, ht], hne⟩

/-- Witness for C4: the three login outcomes on the fixture. -/
theorem login_cases_witness :
    (Service.Login svc { Email := "test@example.com", Password := "password" }).1 =
      .ok "token" ∧
    (Service.Login svc { Email := "nobody@example.com", Password := "pw" }).1 =
      .error ErrUserNotFound ∧
    (Service.Login svc { Email := "test@example.com", Password := "wrong" }).1 =
      .error ErrInvalidCredentials := by
  refine ⟨?_, ?_, ?_⟩
  · exact ((login_cases svc
      { Email := "test@example.com", Password := "password" }).2.2 testUser
      "token" rfl rfl rfl (by decide)).1
  · exact (login_cases svc
      { Email := "nobody@example.com", Password := "pw" }).1 ErrUserNotFound rfl
  · exact (login_cases svc
      { Email := "test@example.com", Password := "wrong" }).2.1 testUser rfl rfl

/-- C5: `IsAdmin` has no error channel (it is `Bool`-valued): it is false on
an empty `RoleID`, false whenever the role lookup fails, and otherwise true
exactly when the resolved role's name is the fixed admin role name. -/
theorem isAdmin_cases (s : Service) (user : User) :
    (user.RoleID = "" → Service.IsAdmin s user = false)
  ∧ (∀ e, s.roleRepo.getByID user.RoleID = .error e →
        Service.IsAdmin s user = false)
  ∧ (∀ role, user.RoleID ≠ "" → s.roleRepo.getByID user.RoleID = .ok role →
        (Service.IsAdmin s user = true ↔ role.Name = RoleAdmin)) := by
  refine ⟨?_, ?_, ?_⟩
  · intro h
    simp [Service.IsAdmin, h]
  · intro e he
    by_cases h : user.RoleID = ""
    · simp [Service.IsAdmin, h]
    · simp [Service.IsAdmin, h, he]
  · intro role hne hr
    simp [Service.IsAdmin, hne, hr]

/-- Witness for C5: admin role resolves to true; empty and dangling
`RoleID`s give false. -/
theorem isAdmin_cases_witness :
    Service.IsAdmin svc { testUser with RoleID := "r2" } = true ∧
    Service.IsAdmin svc { testUser with RoleID := "" } = false ∧
    Service.IsAdmin svc { testUser with RoleID := "ghost" } = false := by
  refine ⟨?_, ?_, ?_⟩
  · exact ((isAdmin_cases svc { testUser with RoleID := "r2" }).2.2 testRole
      (by decide) rfl).mpr rfl
  · exact (isAdmin_cases svc { testUser with RoleID := "" }).1 rfl
  · exact (isAdmin_cases svc { testUser with RoleID := "ghost" }).2.1
      ErrRoleNotFound rfl

/-- Every error is recognised by `errors.Is` against itself. -/
theorem GoError.is_self (e : GoError) : e.is e = true := by
  cases e <;> simp [GoError.is]

/-- A `%w`-wrapped sentinel is recognised by `errors.Is` against the sentinel. -/
theorem wrapKind_is_self (sentinel cause : GoError) :
    (wrapKind sentinel cause).is sentinel = true := by
  cases sentinel <;> simp [wrapKind, GoError.is, GoError.is_self]

/-- C3: on a fresh email (lookup fails) with hashing succeeding and the user
repository's `Create` succeeding and preserving `RoleID`, `Register` returns
a user whose `RoleID` is the ID of the role resolved by the name "user" —
taken from `GetByName` when that succeeds, or from the lazily created role
when it fails; and when both the lookup and the lazy creation fail,
`Register` fails with "failed to create role" wrapping the cause. -/
theorem register_defaultRole (s : Service) (input : UserRegisterInput)
    (now : Time) (hp : String) (e0 : GoError)
    (hhash : s.hasher.hash input.Password = .ok hp)
    (hmail : s.userRepo.getByEmail input.Email = .error e0)
    (hcreate : ∀ w, ∃ v, s.userRepo.create w = .ok v ∧ v.RoleID = w.RoleID) :
    (∀ role, s.roleRepo.getByName RoleUser = .ok role →
        ∃ cu, (Service.Register s input now).1 = .ok cu ∧ cu.RoleID = role.ID)
  ∧ (∀ e1 role, s.roleRepo.getByName RoleUser = .error e1 →
        s.roleRepo.create { ID := "", Name := RoleUser } = .ok role →
        ∃ cu, (Service.Register s input now).1 = .ok cu ∧ cu.RoleID = role.ID)
  ∧ (∀ e1 e2, s.roleRepo.getByName RoleUser = .error e1 →
        s.roleRepo.create { ID := "", Name := RoleUser } = .error e2 →
        (Service.Register s input now).1 =
          .error (wrapKind ErrFailedToCreateRole e2)) := by
  refine ⟨?_, ?_, ?_⟩
  · intro role hrole
    obtain ⟨v, hv, hvr⟩ := hcreate
      { ID := "", Email := input.Email, Username := input.Username,
        HashedPassword := hp, LastSeen := now, RoleID := role.ID }
    refine ⟨v, ?_, hvr⟩
    simp [Service.Register, hhash, hmail, hrole, registerCreateUser, hv]
  · intro e1 role he1 hcr
    obtain ⟨v, hv, hvr⟩ := hcreate
      { ID := "", Email := input.Email, Username := input.Username,
        HashedPassword := hp, LastSeen := now, RoleID := role.ID }
    refine ⟨v, ?_, hvr⟩
    simp [Service.Register, hhash, hmail, he1, hcr, registerCreateUser, hv]
  · intro e1 e2 he1 he2
    simp [Service.Register, hhash, hmail, he1, he2]

/-- Witness for C3: registering a fresh email on the fixture yields a user
carrying the ID of the stored "user" role. -/
theorem register_defaultRole_witness :
    ∃ cu, (Service.Register svc
      { Email := "new@example.com", Username := "n", Password := "pw" } 0).1 =
        .ok cu ∧ cu.RoleID = "r1" :=
  (register_defaultRole svc
    { Email := "new@example.com", Username := "n", Password := "pw" } 0
    "hashed:pw" ErrUserNotFound rfl rfl
    (fun w => ⟨w, rfl, rfl⟩)).1 defaultRole rfl

/-- C6: `AssignRoleToUser` with an existing user and role (and an update that
preserves `RoleID`) returns a user whose `RoleID` is the role's ID; an
unknown user yields "user not found" and an unknown role "role not found",
and in both failure cases the trace shows `Update` was never invoked. -/
theorem assignRole_cases (s : Service) (userID roleID : String) :
    (∀ u r, s.userRepo.getByID userID = .ok u →
        s.roleRepo.getByID roleID = .ok r →
        (∀ w, ∃ v, s.userRepo.update w = .ok v ∧ v.RoleID = w.RoleID) →
        ∃ v, (Service.AssignRoleToUser s userID roleID).1 = .ok v ∧
          v.RoleID = r.ID)
  ∧ (∀ e, s.userRepo.getByID userID = .error e →
        Service.AssignRoleToUser s userID roleID =
          (.error ErrUserNotFound, [.userGetByID userID]) ∧
        ∀ w, Call.userUpdate w ∉ (Service.AssignRoleToUser s userID roleID).2)
  ∧ (∀ u e, s.userRepo.getByID userID = .ok u →
        s.roleRepo.getByID roleID = .error e →
        Service.AssignRoleToUser s userID roleID =
          (.error ErrRoleNotFound, [.userGetByID userID, .roleGetByID roleID]) ∧
        ∀ w, Call.userUpdate w ∉ (Service.AssignRoleToUser s userID roleID).2) := by
  refine ⟨?_, ?_, ?_⟩
  · intro u r hu hr hupd
    obtain ⟨v, hv, hvr⟩ := hupd { u with RoleID := r.ID }
    refine ⟨v, ?_, hvr⟩
    simp [Service.AssignRoleToUser, hu, hr, hv]
  · intro e he
    simp [Service.AssignRoleToUser, he]
  · intro u e hu he
    simp [Service.AssignRoleToUser, hu, he]

/-- Witness for C6: the three outcomes on the fixture. -/
theorem assignRole_cases_witness :
    (∃ v, (Service.AssignRoleToUser svc "u1" "r2").1 = .ok v ∧ v.RoleID = "r2")
  ∧ Service.AssignRoleToUser svc "ghost" "r2" =
      (.error ErrUserNotFound, [.userGetByID "ghost"])
  ∧ Service.AssignRoleToUser svc "u1" "ghost" =
      (.error ErrRoleNotFound, [.userGetByID "u1", .roleGetByID "ghost"]) := by
  refine ⟨?_, ?_, ?_⟩
  · exact (assignRole_cases svc "u1" "r2").1 testUser testRole rfl rfl
      (fun w => ⟨w, rfl, rfl⟩)
  · exact ((assignRole_cases svc "ghost" "r2").2.1 ErrUserNotFound rfl).1
  · exact ((assignRole_cases svc "u1" "ghost").2.2 testUser ErrRoleNotFound
      rfl rfl).1

/-- A service whose hasher always fails with an opaque cause. -/
def badHashSvc : Service :=
  { svc with hasher := { hash := fun _ => .error (.msg "boom"),
                         verify := mockHasher.verify } }

/-- C7 counterexample: when hashing fails, `Register` returns
`fmt.Errorf("failed to hash password: %w", err)` — an error that wraps the
hasher's cause, not the `ErrFailedToHashPassword` sentinel, so `errors.Is`
against the "failed to hash password" domain kind is false. -/
theorem register_hashError_notDomainKind :
    (Service.Register badHashSvc
        { Email := "a@b.com", Username := "a", Password := "pw" } 0).1 =
      .error (GoError.wrap (.msg "boom") "failed to hash password: boom") ∧
    GoError.is (GoError.wrap (.msg "boom") "failed to hash password: boom")
      ErrFailedToHashPassword = false := by
  exact ⟨rfl, by decide⟩

/-- C7 amended: if hashing fails with cause `e`, `Register` fails fast with
an error wrapping `e` under the message "failed to hash password" (not the
`ErrFailedToHashPassword` sentinel), and its whole trace is the single
hasher call — no repository is consulted. -/
theorem register_hashFailure_failsFast (s : Service) (input : UserRegisterInput)
    (now : Time) (e : GoError)
    (hhash : s.hasher.hash input.Password = .error e) :
    Service.Register s input now =
      (.error (wrapWith "failed to hash password" e),
       [.hasherHash input.Password]) := by
  simp [Service.Register, hhash]

/-- Witness for the amended C7. -/
theorem register_hashFailure_failsFast_witness :
    Service.Register badHashSvc
        { Email := "a@b.com", Username := "a", Password := "pw" } 0 =
      (.error (wrapWith "failed to hash password" (.msg "boom")),
       [.hasherHash "pw"]) :=
  register_hashFailure_failsFast badHashSvc
    { Email := "a@b.com", Username := "a", Password := "pw" } 0 (.msg "boom") rfl

/-- C8: a failing role-repository `List` makes `ListRoles` return
`fmt.Errorf("%w: %v", ErrFailedToListUsers, err)` — recognised by
`errors.Is` as the *user*-list failure kind, with an unwrap chain containing
only that sentinel (the repository's own error is flattened to text, never
exposed as an unwrappable identity); `ListUsers` failures carry the very same
sentinel. -/
theorem listRoles_errorKind (s : Service) :
    (∀ e, s.roleRepo.list = .error e →
        (Service.ListRoles s).1 = .error (wrapKind ErrFailedToListUsers e) ∧
        (wrapKind ErrFailedToListUsers e).is ErrFailedToListUsers = true ∧
        (wrapKind ErrFailedToListUsers e).chain =
          [wrapKind ErrFailedToListUsers e, ErrFailedToListUsers])
  ∧ (∀ e, s.userRepo.list = .error e →
        (Service.ListUsers s).1 = .error (wrapKind ErrFailedToListUsers e) ∧
        (wrapKind ErrFailedToListUsers e).is ErrFailedToListUsers = true) := by
  refine ⟨?_, ?_⟩
  · intro e he
    refine ⟨by simp [Service.ListRoles, he], wrapKind_is_self _ _, ?_⟩
    simp [wrapKind, GoError.chain, ErrFailedToListUsers]
  · intro e he
    exact ⟨by simp [Service.ListUsers, he], wrapKind_is_self _ _⟩

/-- A service whose list operations fail. -/
def badListSvc : Service :=
  { svc with
    userRepo := { mockUserRepo with list := .error (.msg "db down") },
    roleRepo := { mockRoleRepo with list := .error (.msg "db down") } }

/-- Witness for C8. -/
theorem listRoles_errorKind_witness :
    (Service.ListRoles badListSvc).1 =
      .error (wrapKind ErrFailedToListUsers (.msg "db down")) ∧
    (Service.ListUsers badListSvc).1 =
      .error (wrapKind ErrFailedToListUsers (.msg "db down")) := by
  exact ⟨((listRoles_errorKind badListSvc).1 (.msg "db down") rfl).1,
         ((listRoles_errorKind badListSvc).2 (.msg "db down") rfl).1⟩

/-- C10: on the success paths of `ChangePassword` and `ResetPassword` the
record handed to the repository's `Update` is exactly the loaded user with
only `HashedPassword` replaced by the new hash: `ID`, `Email`, `Username`,
`RoleID` and `LastSeen` pass through unchanged. -/
theorem passwordUpdate_frame (s : Service)
    (userID oldPassword newPassword : String) :
    (∀ u h v, s.userRepo.getByID userID = .ok u →
        oldPassword ≠ newPassword →
        s.hasher.verify u.HashedPassword oldPassword = true →
        s.hasher.hash newPassword = .ok h →
        s.userRepo.update { u with HashedPassword := h } = .ok v →
        Service.ChangePassword s userID oldPassword newPassword =
          (.ok v,
           [.userGetByID userID, .hasherVerify u.HashedPassword oldPassword,
            .hasherHash newPassword,
            .userUpdate { u with HashedPassword := h }]) ∧
        ({ u with HashedPassword := h } : User).ID = u.ID ∧
        ({ u with HashedPassword := h } : User).Email = u.Email ∧
        ({ u with HashedPassword := h } : User).Username = u.Username ∧
        ({ u with HashedPassword := h } : User).RoleID = u.RoleID ∧
        ({ u with HashedPassword := h } : User).LastSeen = u.LastSeen ∧
        ({ u with HashedPassword := h } : User).HashedPassword = h)
  ∧ (∀ u h v, s.userRepo.getByID userID = .ok u →
        s.hasher.hash newPassword = .ok h →
        s.userRepo.update { u with HashedPassword := h } = .ok v →
        Service.ResetPassword s userID newPassword =
          (.ok v,
           [.userGetByID userID, .hasherHash newPassword,
            .userUpdate { u with HashedPassword := h }]) ∧
        ({ u with HashedPassword := h } : User).ID = u.ID ∧
        ({ u with HashedPassword := h } : User).Email = u.Email ∧
        ({ u with HashedPassword := h } : User).Username = u.Username ∧
        ({ u with HashedPassword := h } : User).RoleID = u.RoleID ∧
        ({ u with HashedPassword := h } : User).LastSeen = u.LastSeen ∧
        ({ u with HashedPassword := h } : User).HashedPassword = h) := by
  refine ⟨?_, ?_⟩
  · intro u h v hu hne hver hh hupd
    refine ⟨?_, rfl, rfl, rfl, rfl, rfl, rfl⟩
    simp [Service.ChangePassword, hu, hne, hver, hh, hupd]
  · intro u h v hu hh hupd
    refine ⟨?_, rfl, rfl, rfl, rfl, rfl, rfl⟩
    simp [Service.ResetPassword, hu, hh, hupd]

/-- Witness for C10: both password operations on the fixture pass the loaded
user with only the hash replaced. -/
theorem passwordUpdate_frame_witness :
    Service.ChangePassword svc "u1" "password" "newpw" =
      (.ok { testUser with HashedPassword := "hashed:newpw" },
       [.userGetByID "u1", .hasherVerify "hashed:password" "password",
        .hasherHash "newpw",
        .userUpdate { testUser with HashedPassword := "hashed:newpw" }]) ∧
    Service.ResetPassword svc "u1" "resetpw" =
      (.ok { testUser with HashedPassword := "hashed:resetpw" },
       [.userGetByID "u1", .hasherHash "resetpw",
        .userUpdate { testUser with HashedPassword := "hashed:resetpw" }]) := by
  refine ⟨?_, ?_⟩
  · exact ((passwordUpdate_frame svc "u1" "password" "newpw").1 testUser
      "hashed:newpw" { testUser with HashedPassword := "hashed:newpw" }
      rfl (by decide) rfl rfl rfl).1
  · exact ((passwordUpdate_frame svc "u1" "password" "resetpw").2 testUser
      "hashed:resetpw" { testUser with HashedPassword := "hashed:resetpw" }
      rfl rfl rfl).1

/-- Wrapping a cause under a message keeps `errors.Is` against the
"username already exists" sentinel exactly when the cause carries it. -/
theorem wrapWith_is_username (m : String) (cause : GoError)
    (hc : cause.is ErrUsernameAlreadyExists = false) :
    (wrapWith m cause).is ErrUsernameAlreadyExists = false := by
  simpa [wrapWith, ErrUsernameAlreadyExists, GoError.is] using hc

/-- `fmt.Errorf("%w: %v", S, cause)` carries the "username already exists"
sentinel only if `S` does — the flattened cause is irrelevant. -/
theorem wrapKind_is_username (S cause : GoError)
    (hS : S.is ErrUsernameAlreadyExists = false) :
    (wrapKind S cause).is ErrUsernameAlreadyExists = false := by
  simpa [wrapKind, ErrUsernameAlreadyExists, GoError.is] using hS

/-- A service whose hasher fails with the reserved sentinel itself. -/
def usernameErrHashSvc : Service :=
  { svc with hasher := { hash := fun _ => .error ErrUsernameAlreadyExists,
                         verify := mockHasher.verify } }

/-- C9 counterexample: a hasher that fails with `ErrUsernameAlreadyExists`
makes `Register` return `fmt.Errorf("failed to hash password: %w", err)`,
which `errors.Is` recognises as the "username already exists" kind — so
under *every* behavior of the dependencies the kind can be returned. -/
theorem register_usernameKind_leaks :
    (Service.Register usernameErrHashSvc
        { Email := "a@b.com", Username := "a", Password := "pw" } 0).1 =
      .error (wrapWith "failed to hash password" ErrUsernameAlreadyExists) ∧
    GoError.is (wrapWith "failed to hash password" ErrUsernameAlreadyExists)
      ErrUsernameAlreadyExists = true := by
  exact ⟨rfl, by decide⟩

/-- The dependency failures that `Register` and `Login` wrap with `%w` (and
which are therefore the only way a dependency error identity can reach a
caller) do not carry the "username already exists" sentinel. -/
def avoidsUsernameKind (s : Service) : Prop :=
  (∀ p e, s.hasher.hash p = .error e →
      e.is ErrUsernameAlreadyExists = false) ∧
  (∀ u e, s.userRepo.create u = .error e →
      e.is ErrUsernameAlreadyExists = false) ∧
  (∀ m i e, s.tokenizer.generateToken m i = .error e →
      e.is ErrUsernameAlreadyExists = false)

/-- C9 amended: the service itself never constructs the "username already
exists" kind. Provided the hasher's `Hash`, the user repository's `Create`
and the tokenizer's `GenerateToken` never fail with an error carrying that
sentinel (these three failures are `%w`-wrapped and would pass it through),
no operation returns an error recognised as that kind; and `Register` never
performs a username-uniqueness check (`GetByUsername` is never called). -/
theorem noUsernameExistsKind (s : Service) (hs : avoidsUsernameKind s) :
    (∀ input now e, (Service.Register s input now).1 = .error e →
        e.is ErrUsernameAlreadyExists = false)
  ∧ (∀ input e, (Service.Login s input).1 = .error e →
        e.is ErrUsernameAlreadyExists = false)
  ∧ (∀ id e, (Service.GetUserByID s id).1 = .error e →
        e.is ErrUsernameAlreadyExists = false)
  ∧ (∀ u e, (Service.UpdateUser s u).1 = .error e →
        e.is ErrUsernameAlreadyExists = false)
  ∧ (∀ e, (Service.ListUsers s).1 = .error e →
        e.is ErrUsernameAlreadyExists = false)
  ∧ (∀ id e, (Service.DeleteUser s id).1 = .error e →
        e.is ErrUsernameAlreadyExists = false)
  ∧ (∀ id e, (Service.GetRoleByID s id).1 = .error e →
        e.is ErrUsernameAlreadyExists = false)
  ∧ (∀ r e, (Service.CreateRole s r).1 = .error e →
        e.is ErrUsernameAlreadyExists = false)
  ∧ (∀ uid rid e, (Service.AssignRoleToUser s uid rid).1 = .error e →
        e.is ErrUsernameAlreadyExists = false)
  ∧ (∀ e, (Service.ListRoles s).1 = .error e →
        e.is ErrUsernameAlreadyExists = false)
  ∧ (∀ uid now e, (Service.UpdateLastSeen s uid now).1 = .error e →
        e.is ErrUsernameAlreadyExists = false)
  ∧ (∀ uid op np e, (Service.ChangePassword s uid op np).1 = .error e →
        e.is ErrUsernameAlreadyExists = false)
  ∧ (∀ uid np e, (Service.ResetPassword s uid np).1 = .error e →
        e.is ErrUsernameAlreadyExists = false)
  ∧ (∀ input now username,
        Call.userGetByUsername username ∉ (Service.Register s input now).2) := by
  refine ⟨?_, ?_, ?_, ?_, ?_, ?_, ?_, ?_, ?_, ?_, ?_, ?_, ?_, ?_⟩
  · intro input now e he
    rcases hh : s.hasher.hash input.Password with eh | hp
    · simp [Service.Register, hh] at he
      subst he
      exact wrapWith_is_username _ _ (hs.1 _ _ hh)
    · rcases hm : s.userRepo.getByEmail input.Email with em | u
      · rcases hr : s.roleRepo.getByName RoleUser with er | role
        · rcases hc : s.roleRepo.create { ID := "", Name := RoleUser } with ec | role
          · simp [Service.Register, hh, hm, hr, hc] at he
            subst he
            exact wrapKind_is_username _ _ (by decide)
          · rcases hcu : s.userRepo.create
                { ID := "", Email := input.Email, Username := input.Username,
                  HashedPassword := hp, LastSeen := now,
                  RoleID := role.ID } with ecu | cu
            · simp [Service.Register, hh, hm, hr, hc, registerCreateUser, hcu] at he
              subst he
              exact wrapWith_is_username _ _ (hs.2.1 _ _ hcu)
            · simp [Service.Register, hh, hm, hr, hc, registerCreateUser, hcu] at he
        · rcases hcu : s.userRepo.create
              { ID := "", Email := input.Email, Username := input.Username,
                HashedPassword := hp, LastSeen := now,
                RoleID := role.ID } with ecu | cu
          · simp [Service.Register, hh, hm, hr, registerCreateUser, hcu] at he
            subst he
            exact wrapWith_is_username _ _ (hs.2.1 _ _ hcu)
          · simp [Service.Register, hh, hm, hr, registerCreateUser, hcu] at he
      · simp [Service.Register, hh, hm] at he
        subst he
        decide
  · intro input e he
    rcases hm : s.userRepo.getByEmail input.Email with em | u
    · simp [Service.Login, hm] at he
      subst he
      decide
    · cases hv : s.hasher.verify u.HashedPassword input.Password
      · simp [Service.Login, hm, hv] at he
        subst he
        decide
      · rcases ht : s.tokenizer.generateToken u.Email u.ID with et | tok
        · simp [Service.Login, hm, hv, ht] at he
          subst he
          exact wrapWith_is_username _ _ (hs.2.2 _ _ _ ht)
        · simp [Service.Login, hm, hv, ht] at he
  · intro id e he
    rcases h : s.userRepo.getByID id with e1 | u
    · simp [Service.GetUserByID, h] at he
      subst he
      decide
    · simp [Service.GetUserByID, h] at he
  · intro u e he
    rcases h : s.userRepo.update u with e1 | v
    · simp [Service.UpdateUser, h] at he
      subst he
      exact wrapKind_is_username _ _ (by decide)
    · simp [Service.UpdateUser, h] at he
  · intro e he
    rcases h : s.userRepo.list with e1 | us
    · simp [Service.ListUsers, h] at he
      subst he
      exact wrapKind_is_username _ _ (by decide)
    · simp [Service.ListUsers, h] at he
  · intro id e he
    rcases h : s.userRepo.delete id with e1 | x
    · simp [Service.DeleteUser, h] at he
      subst he
      exact wrapKind_is_username _ _ (by decide)
    · simp [Service.DeleteUser, h] at he
  · intro id e he
    rcases h : s.roleRepo.getByID id with e1 | r
    · simp [Service.GetRoleByID, h] at he
      subst he
      decide
    · simp [Service.GetRoleByID, h] at he
  · intro r e he
    rcases h : s.roleRepo.create r with e1 | r1
    · simp [Service.CreateRole, h] at he
      subst he
      exact wrapKind_is_username _ _ (by decide)
    · simp [Service.CreateRole, h] at he
  · intro uid rid e he
    rcases hu : s.userRepo.getByID uid with e1 | u
    · simp [Service.AssignRoleToUser, hu] at he
      subst he
      decide
    · rcases hr : s.roleRepo.getByID rid with e2 | r
      · simp [Service.AssignRoleToUser, hu, hr] at he
        subst he
        decide
      · rcases hup : s.userRepo.update { u with RoleID := r.ID } with e3 | v
        · simp [Service.AssignRoleToUser, hu, hr, hup] at he
          subst he
          exact wrapKind_is_username _ _ (by decide)
        · simp [Service.AssignRoleToUser, hu, hr, hup] at he
  · intro e he
    rcases h : s.roleRepo.list with e1 | rs
    · simp [Service.ListRoles, h] at he
      subst he
      exact wrapKind_is_username _ _ (by decide)
    · simp [Service.ListRoles, h] at he
  · intro uid now e he
    rcases hu : s.userRepo.getByID uid with e1 | u
    · simp [Service.UpdateLastSeen, hu] at he
      subst he
      decide
    · rcases hup : s.userRepo.update { u with LastSeen := now } with e2 | v
      · simp [Service.UpdateLastSeen, hu, hup] at he
        subst he
        exact wrapKind_is_username _ _ (by decide)
      · simp [Service.UpdateLastSeen, hu, hup] at he
  · intro uid op np e he
    rcases hu : s.userRepo.getByID uid with e1 | u
    · simp [Service.ChangePassword, hu] at he
      subst he
      decide
    · by_cases hpw : op = np
      · simp [Service.ChangePassword, hu, hpw] at he
        subst he
        decide
      · cases hv : s.hasher.verify u.HashedPassword op
        · simp [Service.ChangePassword, hu, hpw, hv] at he
          subst he
          decide
        · rcases hh : s.hasher.hash np with e2 | hnp
          · simp [Service.ChangePassword, hu, hpw, hv, hh] at he
            subst he
            exact wrapKind_is_username _ _ (by decide)
          · rcases hup : s.userRepo.update { u with HashedPassword := hnp } with e3 | v
            · simp [Service.ChangePassword, hu, hpw, hv, hh, hup] at he
              subst he
              exact wrapKind_is_username _ _ (by decide)
            · simp [Service.ChangePassword, hu, hpw, hv, hh, hup] at he
  · intro uid np e he
    rcases hu : s.userRepo.getByID uid with e1 | u
    · simp [Service.ResetPassword, hu] at he
      subst he
      decide
    · rcases hh : s.hasher.hash np with e2 | hnp
      · simp [Service.ResetPassword, hu, hh] at he
        subst he
        exact wrapKind_is_username _ _ (by decide)
      · rcases hup : s.userRepo.update { u with HashedPassword := hnp } with e3 | v
        · simp [Service.ResetPassword, hu, hh, hup] at he
          subst he
          exact wrapKind_is_username _ _ (by decide)
        · simp [Service.ResetPassword, hu, hh, hup] at he
  · intro input now username
    rcases hh : s.hasher.hash input.Password with eh | hp
    · simp [Service.Register, hh]
    · rcases hm : s.userRepo.getByEmail input.Email with em | u
      · rcases hr : s.roleRepo.getByName RoleUser with er | role
        · rcases hc : s.roleRepo.create { ID := "", Name := RoleUser } with ec | role
          · simp [Service.Register, hh, hm, hr, hc]
          · rcases hcu : s.userRepo.create
                { ID := "", Email := input.Email, Username := input.Username,
                  HashedPassword := hp, LastSeen := now,
                  RoleID := role.ID } with ecu | cu <;>
              simp [Service.Register, hh, hm, hr, hc, registerCreateUser, hcu]
        · rcases hcu : s.userRepo.create
              { ID := "", Email := input.Email, Username := input.Username,
                HashedPassword := hp, LastSeen := now,
                RoleID := role.ID } with ecu | cu <;>
            simp [Service.Register, hh, hm, hr, registerCreateUser, hcu]
      · simp [Service.Register, hh, hm]

/-- Witness for the amended C9: the fixture's dependencies never fail in the
three `%w`-wrapped positions, so a failing lookup surfaces an error that does
not carry the reserved kind. -/
theorem noUsernameExistsKind_witness :
    GoError.is ErrUserNotFound ErrUsernameAlreadyExists = false := by
  exact (noUsernameExistsKind svc
    ⟨fun p e h => by simp [svc, mockHasher] at h,
     fun u e h => by simp [svc, mockUserRepo] at h,
     fun m i e h => by simp [svc, mockTokenizer] at h⟩).2.2.1
    "ghost" ErrUserNotFound rfl

end UsersCore
